import Mathlib

/-!
Verification of the system-information tool
(`src/nanobot/agent/tools/system.py`, class `SystemInfoTool`).

The tool is embedded shallowly.  An `Env` value records, for one
invocation, everything the Python code reads from the host: the
`platform.*` identity strings, `os.cpu_count()`, the raw data sources
(`/proc/cpuinfo`, `/proc/meminfo`, `sysctl`, `vm_stat`, the Windows
memory-status API, `shutil.disk_usage`) and the working directory.
Fallible reads are `Except String α`: `Except.error e` models a raised
exception whose rendered message (`str(e)`) is `e`.  Python floats are
modelled by exact rationals; `f"{x:.2f}"`/`f"{x:.1f}"` formatting is
modelled by `fmtFixed`, which renders the exact rational in fixed-point
with round-half-to-even.
-/

namespace SystemInfo

/-- Python values that can arrive as the tool's selector argument:
strings, ints, bools, None. -/
inductive PyVal where
  | str (s : String)
  | int (n : Int)
  | bool (b : Bool)
  | none
deriving DecidableEq

/-- Python truthiness, as tested by `if info_type:`. -/
def pyTruthy : PyVal → Prop
  | PyVal.str s => s ≠ ""
  | PyVal.int n => n ≠ 0
  | PyVal.bool b => b = true
  | PyVal.none => False

instance (v : PyVal) : Decidable (pyTruthy v) :=
  match v with
  | PyVal.str s => inferInstanceAs (Decidable (s ≠ ""))
  | PyVal.int n => inferInstanceAs (Decidable (n ≠ 0))
  | PyVal.bool b => inferInstanceAs (Decidable (b = true))
  | PyVal.none => inferInstanceAs (Decidable False)

/-- Python `str.lower()`, modelled characterwise. -/
def pyLower (s : String) : String := String.mk (s.data.map Char.toLower)

/-- Python `str.strip()` on a character list. -/
def stripChars (l : List Char) : List Char :=
  ((l.dropWhile Char.isWhitespace).reverse.dropWhile Char.isWhitespace).reverse

/-- Python `str.strip()`. -/
def pyStrip (s : String) : String := String.mk (stripChars s.data)

/-- Python `s[:n]`. -/
def pyTake (s : String) (n : Nat) : String := String.mk (s.data.take n)

/-- Python `s.rstrip(":")`. -/
def rstripColon (s : String) : String :=
  String.mk ((s.data.reverse.dropWhile (fun c => c = ':')).reverse)

/-- Python `sep.join(xs)`. -/
def pyJoin (sep : String) : List String → String
  | [] => ""
  | [x] => x
  | x :: y :: t => x ++ (sep ++ pyJoin sep (y :: t))

/-- Python `str.split(sep)` for a one-character separator, on character
lists; like Python it keeps empty pieces. -/
def splitChar (c : Char) : List Char → List (List Char)
  | [] => [[]]
  | x :: xs =>
    let r := splitChar c xs
    if x = c then [] :: r else (x :: r.headD []) :: r.tail

/-- Python `str.split()` (split on whitespace runs, dropping empty
pieces). -/
def pySplitWs (s : String) : List String :=
  ((s.data.splitOnP Char.isWhitespace).filter (fun w => !w.isEmpty)).map String.mk

/-- Decimal digits to a number. -/
def digitsToNat (l : List Char) : Nat :=
  l.foldl (fun a c => a * 10 + (c.toNat - 48)) 0

/-- Python `int(s)` in base 10: optional surrounding whitespace, optional
sign, at least one digit; otherwise it raises ValueError. -/
def pyInt (s : String) : Except String Int :=
  let t := stripChars s.data
  let p : Int × List Char :=
    match t with
    | '-' :: ds => (-1, ds)
    | '+' :: ds => (1, ds)
    | ds => (1, ds)
  if p.2.isEmpty || !p.2.all Char.isDigit then
    Except.error ("invalid literal for int() with base 10: '" ++ s ++ "'")
  else
    Except.ok (p.1 * (digitsToNat p.2 : Int))

/-- Python's substring test (`pat in s`). -/
def strContains (s pat : String) : Prop := pat.data <:+: s.data

instance (s pat : String) : Decidable (strContains s pat) :=
  List.decidableInfix pat.data s.data

/-- The guarded percentage expression used at every usage-percent site of
the source: `(used / total * 100) if total > 0 else 0`. -/
def usagePercent (used total : ℚ) : ℚ :=
  if 0 < total then used / total * 100 else 0

/-- Round to the nearest integer, ties to even. -/
def roundHalfEven (x : ℚ) : Int :=
  let f := x.floor
  if x - f < 1 / 2 then f
  else if 1 / 2 < x - f then f + 1
  else if f % 2 = 0 then f else f + 1

/-- Left-pad a digit string with zeros to width `n`. -/
def padZeros (s : String) (n : Nat) : String :=
  String.mk (List.replicate (n - s.length) '0') ++ s

/-- Fixed-point rendering with `n` fractional digits.  This models the
source's `f"{x:.2f}"` / `f"{x:.1f}"` float formatting by formatting the
exact rational value. -/
def fmtFixed (q : ℚ) (n : Nat) : String :=
  let r := roundHalfEven (q * ((10 : ℚ) ^ n))
  let sign := if r < 0 then "-" else ""
  let a := r.natAbs
  sign ++ toString (a / 10 ^ n) ++ "." ++ padZeros (toString (a % 10 ^ n)) n

/-- `f"{x:.2f}"`. -/
def fmt2 (q : ℚ) : String := fmtFixed q 2

/-- `f"{x:.1f}"`. -/
def fmt1 (q : ℚ) : String := fmtFixed q 1

/-- One invocation's view of the host.  The string fields are the
`platform.*` identity probes (which do not fail); the `Except`-valued
fields model the fallible raw data-source reads. -/
structure Env where
  /-- `platform.system()` -/
  system : String
  /-- `platform.release()` -/
  release : String
  /-- `platform.version()` -/
  version : String
  /-- `platform.machine()` -/
  machine : String
  /-- `platform.processor()` -/
  processor : String
  /-- `os.cpu_count()` (Python returns `Optional[int]`) -/
  cpuCount : Option Nat
  /-- the lines of `/proc/cpuinfo`; `Except.error` models `open` failing -/
  procCpuinfo : Except String (List String)
  /-- `sysctl -n machdep.cpu.brand_string`: return code and stdout;
  `Except.error` models a missing utility or a timeout -/
  sysctlBrand : Except String (Int × String)
  /-- the lines of `/proc/meminfo` -/
  procMeminfo : Except String (List String)
  /-- `vm_stat`: return code and stdout -/
  vmStat : Except String (Int × String)
  /-- `GlobalMemoryStatusEx`: (ullTotalPhys, ullAvailPhys) in bytes -/
  winMem : Except String (Nat × Nat)
  /-- `os.getcwd()` -/
  cwd : String
  /-- `shutil.disk_usage(cwd)`: (total, used, free) in bytes -/
  diskUsageCwd : Except String (Nat × Nat × Nat)
  /-- `shutil.disk_usage("C:\\")`: (total, used, free) in bytes -/
  diskUsageC : Except String (Nat × Nat × Nat)

/-- `SystemInfoTool._get_os_info`: the OS section. -/
def _get_os_info (env : Env) : String :=
  "=== OS Information ===" ++ ("\n" ++ ("System: " ++ env.system
    ++ "\nRelease: " ++ env.release
    ++ "\nVersion: " ++ env.version
    ++ "\nMachine: " ++ env.machine
    ++ "\nProcessor: " ++ env.processor))

/-- `os.cpu_count() or "Unknown"` as rendered into the count line (0 and
None are both falsy, hence "Unknown"). -/
def cpuCountDisplay : Option Nat → String
  | Option.some n => if n = 0 then "Unknown" else toString n
  | Option.none => "Unknown"

/-- `line.split(":")[-1]`. -/
def lastColonPart (line : String) : String :=
  String.mk ((splitChar ':' line.data).getLastD [])

/-- The `/proc/cpuinfo` scan of `_get_cpu_info`: the first line that
contains "model name" (in its lowercased form) yields
`line.split(":")[-1].strip()`; no match yields the empty string. -/
def modelScan : List String → String
  | [] => ""
  | line :: rest =>
    if strContains (pyLower line) "model name" then pyStrip (lastColonPart line)
    else modelScan rest

/-- The CPU-model probe (`freq_info` of `_get_cpu_info`): Linux scans
`/proc/cpuinfo`, Darwin runs sysctl and takes trimmed stdout on exit code
0, every other platform and every failure yields `""` (the inner
`except Exception: pass` keeps the initial empty value). -/
def cpuModel (env : Env) : String :=
  if env.system = "Linux" then
    match env.procCpuinfo with
    | Except.ok lines => modelScan lines
    | Except.error _ => ""
  else if env.system = "Darwin" then
    match env.sysctlBrand with
    | Except.ok r => if r.1 = 0 then pyStrip r.2 else ""
    | Except.error _ => ""
  else ""

/-- `SystemInfoTool._get_cpu_info`: banner and logical-count line, plus a
model line only when the probe produced a non-empty value.  (The
method's outer `except` branch is unreachable here because every
fallible probe already sits inside the inner guard.) -/
def _get_cpu_info (env : Env) : String :=
  let info := "=== CPU Information ===" ++ ("\n" ++ ("CPU Count (logical): "
    ++ cpuCountDisplay env.cpuCount))
  if cpuModel env = "" then info else info ++ ("\nCPU Model: " ++ cpuModel env)

/-- The four-line memory report emitted identically by the Windows and
Linux branches of `_get_memory_info`. -/
def memReport (total_gb used_gb avail_gb percent : ℚ) : String :=
  "=== Memory Information ===" ++ ("\n" ++ ("Total: " ++ fmt2 total_gb
    ++ " GB\nUsed: " ++ fmt2 used_gb
    ++ " GB\nAvailable: " ++ fmt2 avail_gb
    ++ " GB\nUsage: " ++ fmt1 percent ++ "%"))

/-- One iteration of the `/proc/meminfo` parsing loop: lines with at
least two whitespace-separated fields contribute
`parts[0].rstrip(":") ↦ int(parts[1])`; `int` may raise.  A later
binding for the same key shadows an earlier one, modelled by prepending
(lookups take the most recent pair). -/
def parseMeminfoStep (acc : List (String × Int)) (line : String) :
    Except String (List (String × Int)) :=
  let parts := pySplitWs line
  if parts.length ≥ 2 then
    match pyInt (parts.getD 1 "") with
    | Except.ok v => Except.ok ((rstripColon (parts.getD 0 ""), v) :: acc)
    | Except.error e => Except.error e
  else Except.ok acc

/-- The `/proc/meminfo` parsing loop over the file's lines. -/
def parseMeminfoAux (acc : List (String × Int)) :
    List String → Except String (List (String × Int))
  | [] => Except.ok acc
  | l :: ls =>
    match parseMeminfoStep acc l with
    | Except.ok acc2 => parseMeminfoAux acc2 ls
    | Except.error e => Except.error e

/-- `meminfo` as a key-to-integer(KB) mapping. -/
def parseMeminfo (lines : List String) : Except String (List (String × Int)) :=
  parseMeminfoAux [] lines

/-- `meminfo.get(key, default)`. -/
def dictGet (m : List (String × Int)) (k : String) (d : Int) : Int :=
  match m.find? (fun p => p.1 == k) with
  | Option.some p => p.2
  | Option.none => d

/-- The inner try-block of `_get_memory_info` on the non-Windows path:
Linux parses `/proc/meminfo` and builds the four-line report from
MemTotal and MemAvailable-else-MemFree; any other system runs `vm_stat`
and emits its first 500 stdout characters under the banner, or an
"unable to retrieve" line on a nonzero exit code. -/
def memBodyNonWindows (env : Env) : Except String String :=
  if env.system = "Linux" then
    match env.procMeminfo with
    | Except.error e => Except.error e
    | Except.ok lines =>
      match parseMeminfo lines with
      | Except.error e => Except.error e
      | Except.ok meminfo =>
        let total_kb := dictGet meminfo "MemTotal" 0
        let avail_kb := dictGet meminfo "MemAvailable" (dictGet meminfo "MemFree" 0)
        let used_kb := total_kb - avail_kb
        Except.ok (memReport ((total_kb : ℚ) / 1024 ^ 2) ((used_kb : ℚ) / 1024 ^ 2)
          ((avail_kb : ℚ) / 1024 ^ 2) (usagePercent (used_kb : ℚ) (total_kb : ℚ)))
  else
    match env.vmStat with
    | Except.error e => Except.error e
    | Except.ok r =>
      if r.1 = 0 then
        Except.ok ("=== Memory Information ===" ++ ("\n" ++ pyTake r.2 500))
      else
        Except.ok ("=== Memory Information ===" ++ ("\n" ++ "Unable to retrieve memory info"))

/-- `SystemInfoTool._get_memory_info`: the Windows branch uses the native
memory-status call (any failure gives the one-line "unable" message,
discarding the exception text); other systems run the inner try-block,
whose exceptions render as an `Error:` line under the banner. -/
def _get_memory_info (env : Env) : String :=
  if env.system = "Windows" then
    match env.winMem with
    | Except.ok m =>
      let total_gb : ℚ := (m.1 : ℚ) / 1024 ^ 3
      let avail_gb : ℚ := (m.2 : ℚ) / 1024 ^ 3
      let used_gb := total_gb - avail_gb
      memReport total_gb used_gb avail_gb (usagePercent used_gb total_gb)
    | Except.error _ =>
      "=== Memory Information ===" ++ ("\n" ++ "Unable to retrieve memory info on Windows")
  else
    match memBodyNonWindows env with
    | Except.ok s => s
    | Except.error e => "=== Memory Information ===" ++ ("\n" ++ ("Error: " ++ e))

/-- The try-block of `_get_disk_info`: banner, working-directory usage
block, and on Windows additionally the C: drive block when that second
query succeeds (its failure is silently ignored). -/
def diskBody (env : Env) : Except String String :=
  match env.diskUsageCwd with
  | Except.error e => Except.error e
  | Except.ok du =>
    let total := du.1
    let used := du.2.1
    let free := du.2.2
    let total_gb : ℚ := (total : ℚ) / 1024 ^ 3
    let used_gb : ℚ := (used : ℚ) / 1024 ^ 3
    let free_gb : ℚ := (free : ℚ) / 1024 ^ 3
    let percent := usagePercent (used : ℚ) (total : ℚ)
    let parts := ["=== Disk Information ===",
      "Current directory: " ++ env.cwd,
      "Total: " ++ fmt2 total_gb ++ " GB",
      "Used: " ++ fmt2 used_gb ++ " GB (" ++ fmt1 percent ++ "%)",
      "Free: " ++ fmt2 free_gb ++ " GB"]
    let parts2 :=
      if env.system = "Windows" then
        match env.diskUsageC with
        | Except.ok dc =>
          parts ++ ["", "C: Drive:",
            "Total: " ++ fmt2 ((dc.1 : ℚ) / 1024 ^ 3) ++ " GB",
            "Used: " ++ fmt2 ((dc.2.1 : ℚ) / 1024 ^ 3) ++ " GB ("
              ++ fmt1 (usagePercent (dc.2.1 : ℚ) (dc.1 : ℚ)) ++ "%)",
            "Free: " ++ fmt2 ((dc.2.2 : ℚ) / 1024 ^ 3) ++ " GB"]
        | Except.error _ => parts
      else parts
    Except.ok (pyJoin "\n" parts2)

/-- `SystemInfoTool._get_disk_info`: the try-block result, or an `Error:`
line under the banner when the primary query raised. -/
def _get_disk_info (env : Env) : String :=
  match diskBody env with
  | Except.ok s => s
  | Except.error e => "=== Disk Information ===" ++ ("\n" ++ ("Error: " ++ e))

/-- `SystemInfoTool._get_all_info`: the full report. -/
def _get_all_info (env : Env) : String :=
  pyJoin "\n" ["=== System Information ===", "",
    _get_os_info env, "", _get_cpu_info env, "", _get_memory_info env, "",
    _get_disk_info env]

/-- The if/elif dispatch chain of `execute`, applied to the normalized
selector string. -/
def dispatchInfo (env : Env) (it : String) : String :=
  if it = "all" then _get_all_info env
  else if it = "os" then _get_os_info env
  else if it = "cpu" then _get_cpu_info env
  else if it = "memory" then _get_memory_info env
  else if it = "disk" then _get_disk_info env
  else "Error: Unknown info_type '" ++ it ++ "'. Use: all, os, cpu, memory, or disk"

/-- `info_type.lower()` on an arbitrary Python value: non-strings raise
AttributeError. -/
def pyLowerVal : PyVal → Except String String
  | PyVal.str s => Except.ok (pyLower s)
  | PyVal.int _ => Except.error "'int' object has no attribute 'lower'"
  | PyVal.bool _ => Except.error "'bool' object has no attribute 'lower'"
  | PyVal.none => Except.error "'NoneType' object has no attribute 'lower'"

/-- `info_type.lower() if info_type else "all"`. -/
def lowerSelector (it : PyVal) : Except String String :=
  if pyTruthy it then pyLowerVal it else Except.ok "all"

/-- The try-block body of `execute`: normalize, then dispatch. -/
def executeBody (env : Env) (it : PyVal) : Except String String :=
  match lowerSelector it with
  | Except.ok s => Except.ok (dispatchInfo env s)
  | Except.error e => Except.error e

/-- `SystemInfoTool.execute`: the try-block result, with any exception
caught and rendered as an error string.  Extra keyword arguments are
accepted and ignored. -/
def execute (env : Env) (it : PyVal) (kwargs : List (String × PyVal)) : String :=
  match executeBody env it with
  | Except.ok s => s
  | Except.error e => "Error getting system info: " ++ e

/-- A call that omits the selector argument uses the declared default
`info_type = "all"`. -/
def executeOpt (env : Env) (it : Option PyVal) (kwargs : List (String × PyVal)) : String :=
  execute env (it.getD (PyVal.str "all")) kwargs

/-- The given patterns all occur inside the character list, disjointly
and in the given order. -/
def ChainInfix : List Char → List String → Prop
  | _, [] => True
  | s, p :: ps => ∃ pre suf, s = pre ++ (p.data ++ suf) ∧ ChainInfix suf ps

/-- A small concrete host (an unrecognized platform) used for witnesses
and counterexamples. -/
def testEnv : Env where
  system := "Zos"
  release := "r1"
  version := "v1"
  machine := "m1"
  processor := "p1"
  cpuCount := Option.some 4
  procCpuinfo := Except.error "f"
  sysctlBrand := Except.error "f"
  procMeminfo := Except.error "f"
  vmStat := Except.ok (0, "vm")
  winMem := Except.error "f"
  cwd := "/w"
  diskUsageCwd := Except.error "d"
  diskUsageC := Except.error "f"

/-- A Linux host with a small three-line meminfo file, for the
memory-path witness. -/
def linuxMemEnv : Env :=
  { testEnv with
    system := "Linux"
    procMeminfo := Except.ok ["MemTotal: 8 kB", "MemFree: 2 kB", "MemAvailable: 4 kB"] }

/-- A Linux host whose cpuinfo model-name value itself contains the
separator character, for the CPU-model counterexample. -/
def colonModelEnv : Env :=
  { testEnv with
    system := "Linux"
    procCpuinfo := Except.ok ["model name : a:b"] }

/-! ### Helper lemmas -/

theorem strContains_of_eq_append (s b t : String) (h : s = b ++ t) : strContains s b := by
  subst h
  show b.data <:+: (b ++ t).data
  rw [String.data_append]
  exact List.IsPrefix.isInfix (List.prefix_append b.data t.data)

theorem strContains_append_left (s t p : String) (h : strContains s p) :
    strContains (s ++ t) p := by
  show p.data <:+: (s ++ t).data
  rw [String.data_append]
  exact List.IsInfix.trans h (List.IsPrefix.isInfix (List.prefix_append s.data t.data))

theorem str_append_cancel_left {a b c : String} (h : a ++ b = a ++ c) : b = c := by
  apply String.ext
  have hd := congrArg String.data h
  simp only [String.data_append] at hd
  exact List.append_cancel_left hd

theorem os_split (env : Env) :
    ∃ r, _get_os_info env = "=== OS Information ===" ++ ("\n" ++ r) :=
  ⟨_, rfl⟩

theorem cpu_split (env : Env) :
    ∃ r, _get_cpu_info env = "=== CPU Information ===" ++ ("\n" ++ r) := by
  by_cases h : cpuModel env = ""
  · exact ⟨_, show _get_cpu_info env = _ by unfold _get_cpu_info; rw [if_pos h]⟩
  · refine ⟨"CPU Count (logical): " ++ cpuCountDisplay env.cpuCount
      ++ ("\nCPU Model: " ++ cpuModel env), ?_⟩
    have h2 : _get_cpu_info env = ("=== CPU Information ==="
        ++ ("\n" ++ ("CPU Count (logical): " ++ cpuCountDisplay env.cpuCount)))
        ++ ("\nCPU Model: " ++ cpuModel env) := by
      unfold _get_cpu_info; rw [if_neg h]
    rw [h2]
    apply String.ext
    simp [List.append_assoc]

theorem memBody_split (env : Env) (s : String)
    (h : memBodyNonWindows env = Except.ok s) :
    ∃ r, s = "=== Memory Information ===" ++ ("\n" ++ r) := by
  unfold memBodyNonWindows at h
  split at h
  · split at h
    · cases h
    · split at h
      · cases h
      · injection h with h2
        subst h2
        exact ⟨_, rfl⟩
  · split at h
    · cases h
    · split at h
      · injection h with h2
        subst h2
        exact ⟨_, rfl⟩
      · injection h with h2
        subst h2
        exact ⟨_, rfl⟩

theorem mem_split (env : Env) :
    ∃ r, _get_memory_info env = "=== Memory Information ===" ++ ("\n" ++ r) := by
  unfold _get_memory_info
  split
  · split
    · exact ⟨_, rfl⟩
    · exact ⟨_, rfl⟩
  · cases hb : memBodyNonWindows env with
    | ok s2 => exact memBody_split env s2 hb
    | error e => exact ⟨_, rfl⟩

theorem diskBody_split (env : Env) (s : String) (h : diskBody env = Except.ok s) :
    ∃ r, s = "=== Disk Information ===" ++ ("\n" ++ r) := by
  unfold diskBody at h
  split at h
  · cases h
  · injection h with h2
    subst h2
    split
    · split
      · exact ⟨_, rfl⟩
      · exact ⟨_, rfl⟩
    · exact ⟨_, rfl⟩

theorem disk_split (env : Env) :
    ∃ r, _get_disk_info env = "=== Disk Information ===" ++ ("\n" ++ r) := by
  unfold _get_disk_info
  cases hb : diskBody env with
  | ok s2 => exact diskBody_split env s2 hb
  | error e => exact ⟨_, rfl⟩

theorem contains_banner_of_split {s b : String} (h : ∃ r, s = b ++ ("\n" ++ r)) :
    strContains s b := by
  obtain ⟨r, hr⟩ := h
  exact strContains_of_eq_append s b ("\n" ++ r) hr

/-! ### C9: every section starts with its banner line -/

/-- C9: on every execution path (including every error and degraded
path), each section builder's output is its fixed banner, a newline, and
a remainder; the banners contain no newline, so the banner is exactly the
first line. -/
theorem section_banner_first (env : Env) :
    (∃ r, _get_os_info env = "=== OS Information ===" ++ ("\n" ++ r)) ∧
    (∃ r, _get_cpu_info env = "=== CPU Information ===" ++ ("\n" ++ r)) ∧
    (∃ r, _get_memory_info env = "=== Memory Information ===" ++ ("\n" ++ r)) ∧
    (∃ r, _get_disk_info env = "=== Disk Information ===" ++ ("\n" ++ r)) ∧
    ("=== OS Information ===" : String).data.all (fun c => c != '\n') = true ∧
    ("=== CPU Information ===" : String).data.all (fun c => c != '\n') = true ∧
    ("=== Memory Information ===" : String).data.all (fun c => c != '\n') = true ∧
    ("=== Disk Information ===" : String).data.all (fun c => c != '\n') = true :=
  ⟨os_split env, cpu_split env, mem_split env, disk_split env,
    by decide, by decide, by decide, by decide⟩

/-! ### C6: degraded CPU section -/

/-- C6: when the CPU-model probe fails or yields nothing (missing file,
missing utility, timeout, nonzero exit — each of which leaves `cpuModel`
empty), the CPU section is exactly the banner plus the logical-core-count
line: it still contains that line, differs from every output carrying a
CPU-model line, and differs from every error-line output. -/
theorem cpu_degraded_section (env : Env) (h : cpuModel env = "") :
    _get_cpu_info env = "=== CPU Information ==="
      ++ ("\n" ++ ("CPU Count (logical): " ++ cpuCountDisplay env.cpuCount)) ∧
    (∀ m, _get_cpu_info env ≠ "=== CPU Information ==="
      ++ ("\n" ++ ("CPU Count (logical): " ++ cpuCountDisplay env.cpuCount))
      ++ ("\nCPU Model: " ++ m)) ∧
    (∀ e, _get_cpu_info env ≠ "=== CPU Information ===" ++ ("\nError: " ++ e)) := by
  have h1 : _get_cpu_info env = "=== CPU Information ==="
      ++ ("\n" ++ ("CPU Count (logical): " ++ cpuCountDisplay env.cpuCount)) := by
    unfold _get_cpu_info; rw [if_pos h]
  refine ⟨h1, ?_, ?_⟩
  · intro m heq
    rw [h1] at heq
    have hlen := congrArg String.length heq
    have h12 : ("\nCPU Model: " ++ m).length = 12 + m.length := by
      have : ("\nCPU Model: " : String).length = 12 := rfl
      simp [String.length_append, this]
    simp only [String.length_append] at hlen h12
    omega
  · intro e heq
    rw [h1] at heq
    have h2 : "\n" ++ ("CPU Count (logical): " ++ cpuCountDisplay env.cpuCount)
        = "\nError: " ++ e := str_append_cancel_left heq
    have h3 : "CPU Count (logical): " ++ cpuCountDisplay env.cpuCount = "Error: " ++ e := by
      apply str_append_cancel_left (a := "\n")
      rw [h2]
      apply String.ext
      simp
    have h4 := congrArg (fun t => t.data.head?) h3
    have h5 : some 'C' = some 'E' := h4
    cases h5

theorem cpu_degraded_section_witness :
    _get_cpu_info testEnv = "=== CPU Information ==="
      ++ ("\n" ++ ("CPU Count (logical): " ++ cpuCountDisplay testEnv.cpuCount)) :=
  (cpu_degraded_section testEnv rfl).1

/-! ### C5: guarded percentage computation -/

/-- C5: in every usage-percentage computation of the source (the Windows
and Linux memory paths and the two disk blocks, all of which are
applications of `usagePercent`), a zero total yields exactly 0 with no
division fault, and a positive total with `0 ≤ used ≤ total` (which the
data sources guarantee) yields a percent in [0, 100]. -/
theorem usage_percent_bounds (u t : ℚ) :
    usagePercent u 0 = 0 ∧
    (0 ≤ u → u ≤ t → 0 < t → 0 ≤ usagePercent u t ∧ usagePercent u t ≤ 100) := by
  constructor
  · simp [usagePercent]
  · intro hu hut ht
    rw [usagePercent, if_pos ht]
    refine ⟨by positivity, ?_⟩
    have h1 : u / t ≤ 1 := (div_le_one ht).mpr hut
    nlinarith

theorem usage_percent_bounds_witness :
    0 ≤ usagePercent 1 4 ∧ usagePercent 1 4 ≤ 100 :=
  (usage_percent_bounds 1 4).2 (by norm_num) (by norm_num) (by norm_num)

/-! ### C10: falsy selectors default to "all" -/

/-- C10: an empty-string selector, and every other falsy selector value
(0, False, None), is treated as the default "all" and produces the full
report, not the Unknown-info_type error. -/
theorem falsy_selector_defaults_all (env : Env) (kw : List (String × PyVal)) :
    execute env (PyVal.str "") kw = _get_all_info env ∧
    execute env (PyVal.int 0) kw = _get_all_info env ∧
    execute env (PyVal.bool false) kw = _get_all_info env ∧
    execute env PyVal.none kw = _get_all_info env :=
  ⟨rfl, rfl, rfl, rfl⟩

/-! ### C1: execute always returns a string -/

/-- C1: for every host state (hence under every fault in a probe or a
section builder), every selector value (strings or not) and any ignored
keyword arguments, `execute` returns a string; when its try-block body
raises, the exception is caught and rendered as an error string rather
than propagated. -/
theorem execute_never_raises (env : Env) (it : PyVal) (kw : List (String × PyVal)) :
    (∃ s : String, execute env it kw = s) ∧
    (∀ e, executeBody env it = Except.error e →
      execute env it kw = "Error getting system info: " ++ e) ∧
    (∀ kw2, execute env it kw = execute env it kw2) := by
  refine ⟨⟨execute env it kw, rfl⟩, ?_, fun kw2 => rfl⟩
  intro e he
  unfold execute
  rw [he]

theorem execute_never_raises_witness :
    execute testEnv (PyVal.int 5) [] =
      "Error getting system info: 'int' object has no attribute 'lower'" := by
  have h := (execute_never_raises testEnv (PyVal.int 5) []).2.1
    "'int' object has no attribute 'lower'" rfl
  rw [h]
  decide

/-! ### C2: unknown selectors -/

set_option maxRecDepth 40000 in
/-- C2 counterexample: the empty string lowercases to a value outside
{all, os, cpu, memory, disk}, yet `execute` returns the full report (the
empty string is falsy, so it is defaulted, not rejected); the result does
not contain "Unknown info_type".  This refutes the claim as stated, which
quantifies over every selector value outside the set. -/
theorem unknown_selector_claim_cex :
    pyLower "" ∉ (["all", "os", "cpu", "memory", "disk"] : List String) ∧
    execute testEnv (PyVal.str "") [] = _get_all_info testEnv ∧
    ¬ strContains (execute testEnv (PyVal.str "") []) "Unknown info_type" :=
  ⟨by decide, rfl, by decide⟩

/-- C2 (amended to non-empty selectors): for every non-empty string
selector whose lowercased form is outside {all, os, cpu, memory, disk},
`execute` returns — not raises — an error string naming the (lowercased)
offending value and listing the valid options, containing both "Error"
and "Unknown info_type". -/
theorem unknown_selector_error_string (env : Env) (kw : List (String × PyVal)) (s : String)
    (hne : s ≠ "")
    (hout : pyLower s ∉ (["all", "os", "cpu", "memory", "disk"] : List String)) :
    execute env (PyVal.str s) kw =
      "Error: Unknown info_type '" ++ pyLower s ++ "'. Use: all, os, cpu, memory, or disk" ∧
    strContains (execute env (PyVal.str s) kw) "Error" ∧
    strContains (execute env (PyVal.str s) kw) "Unknown info_type" := by
  have h1 : pyLower s ≠ "all" := fun h => hout (by simp [h])
  have h2 : pyLower s ≠ "os" := fun h => hout (by simp [h])
  have h3 : pyLower s ≠ "cpu" := fun h => hout (by simp [h])
  have h4 : pyLower s ≠ "memory" := fun h => hout (by simp [h])
  have h5 : pyLower s ≠ "disk" := fun h => hout (by simp [h])
  have hex : execute env (PyVal.str s) kw =
      "Error: Unknown info_type '" ++ pyLower s ++ "'. Use: all, os, cpu, memory, or disk" := by
    unfold execute executeBody lowerSelector
    rw [if_pos (show pyTruthy (PyVal.str s) from hne)]
    show dispatchInfo env (pyLower s) = _
    unfold dispatchInfo
    rw [if_neg h1, if_neg h2, if_neg h3, if_neg h4, if_neg h5]
  refine ⟨hex, ?_, ?_⟩
  · rw [hex]
    exact strContains_append_left _ _ _ (strContains_append_left _ _ _
      (strContains_of_eq_append _ "Error" (": Unknown info_type '") rfl))
  · rw [hex]
    refine strContains_append_left _ _ _ (strContains_append_left _ _ _ ?_)
    show ("Unknown info_type").data <:+: ("Error: Unknown info_type '").data
    decide

theorem unknown_selector_error_string_witness :
    execute testEnv (PyVal.str "bogus") [] =
      "Error: Unknown info_type '" ++ pyLower "bogus" ++ "'. Use: all, os, cpu, memory, or disk" ∧
    strContains (execute testEnv (PyVal.str "bogus") []) "Error" ∧
    strContains (execute testEnv (PyVal.str "bogus") []) "Unknown info_type" :=
  unknown_selector_error_string testEnv [] "bogus" (by decide) (by decide)

/-! ### C4: valid selectors dispatch to their section -/

theorem exec_lowered (env : Env) (kw : List (String × PyVal)) (s x : String)
    (hx : pyLower s = x) (hne : x ≠ "") :
    execute env (PyVal.str s) kw = dispatchInfo env x := by
  have hs : s ≠ "" := by
    intro h
    subst h
    exact hne (by rw [← hx]; rfl)
  unfold execute executeBody lowerSelector
  rw [if_pos (show pyTruthy (PyVal.str s) from hs)]
  show dispatchInfo env (pyLower s) = dispatchInfo env x
  rw [hx]

/-- C4: for every selector whose lowercased form is one of {all, os, cpu,
memory, disk}, `execute` returns exactly the corresponding section's text
unmodified (the full report for "all"), and that text contains the
section's banner substring; a call omitting the selector uses the
default "all". -/
theorem valid_selector_dispatch (env : Env) (kw : List (String × PyVal)) (s : String) :
    (pyLower s = "all" → execute env (PyVal.str s) kw = _get_all_info env ∧
      strContains (_get_all_info env) "=== System Information ===") ∧
    (pyLower s = "os" → execute env (PyVal.str s) kw = _get_os_info env ∧
      strContains (_get_os_info env) "=== OS Information ===") ∧
    (pyLower s = "cpu" → execute env (PyVal.str s) kw = _get_cpu_info env ∧
      strContains (_get_cpu_info env) "=== CPU Information ===") ∧
    (pyLower s = "memory" → execute env (PyVal.str s) kw = _get_memory_info env ∧
      strContains (_get_memory_info env) "=== Memory Information ===") ∧
    (pyLower s = "disk" → execute env (PyVal.str s) kw = _get_disk_info env ∧
      strContains (_get_disk_info env) "=== Disk Information ===") ∧
    executeOpt env Option.none kw = _get_all_info env := by
  refine ⟨fun h => ⟨(exec_lowered env kw s "all" h (by decide)).trans rfl,
      strContains_of_eq_append _ "=== System Information ==="
        ("\n" ++ pyJoin "\n" ["", _get_os_info env, "", _get_cpu_info env, "",
          _get_memory_info env, "", _get_disk_info env]) rfl⟩,
    fun h => ⟨(exec_lowered env kw s "os" h (by decide)).trans rfl,
      contains_banner_of_split (os_split env)⟩,
    fun h => ⟨(exec_lowered env kw s "cpu" h (by decide)).trans rfl,
      contains_banner_of_split (cpu_split env)⟩,
    fun h => ⟨(exec_lowered env kw s "memory" h (by decide)).trans rfl,
      contains_banner_of_split (mem_split env)⟩,
    fun h => ⟨(exec_lowered env kw s "disk" h (by decide)).trans rfl,
      contains_banner_of_split (disk_split env)⟩, rfl⟩

theorem valid_selector_dispatch_witness :
    execute testEnv (PyVal.str "CPU") [] = _get_cpu_info testEnv ∧
    strContains (_get_cpu_info testEnv) "=== CPU Information ===" :=
  (valid_selector_dispatch testEnv [] "CPU").2.2.1 (by decide)

/-! ### C3: structure of the full report -/

theorem chainInfix_nil (s : List Char) : ChainInfix s [] := trivial

theorem chainInfix_here {p : String} {s : List Char} {ps : List String}
    (h : ChainInfix s ps) : ChainInfix (p.data ++ s) (p :: ps) :=
  ⟨[], s, rfl, h⟩

theorem chainInfix_append_left (t : List Char) {s : List Char} {ps : List String}
    (h : ChainInfix s ps) : ChainInfix (t ++ s) ps := by
  cases ps with
  | nil => trivial
  | cons p ps =>
    obtain ⟨pre, suf, he, hc⟩ := h
    exact ⟨t ++ pre, suf, by rw [he, List.append_assoc], hc⟩

/-- C3: for the selector "all", the returned text is the top-level banner
followed by the four section texts in the fixed order OS, CPU, Memory,
Disk, joined with single blank lines; hence it contains the top-level
banner and all four section banners in that order. -/
theorem all_report_structure (env : Env) (kw : List (String × PyVal)) :
    execute env (PyVal.str "all") kw
      = "=== System Information ===" ++ ("\n\n" ++ (_get_os_info env
        ++ ("\n\n" ++ (_get_cpu_info env ++ ("\n\n" ++ (_get_memory_info env
        ++ ("\n\n" ++ _get_disk_info env))))))) ∧
    ChainInfix (execute env (PyVal.str "all") kw).data
      ["=== System Information ===", "=== OS Information ===",
       "=== CPU Information ===", "=== Memory Information ===",
       "=== Disk Information ==="] := by
  have hnl : ("\n\n" : String).data = ("\n" : String).data ++ ("\n" : String).data := by decide
  have h1 : execute env (PyVal.str "all") kw
      = "=== System Information ===" ++ ("\n\n" ++ (_get_os_info env
        ++ ("\n\n" ++ (_get_cpu_info env ++ ("\n\n" ++ (_get_memory_info env
        ++ ("\n\n" ++ _get_disk_info env))))))) := by
    show _get_all_info env = _
    apply String.ext
    unfold _get_all_info
    simp only [pyJoin, String.data_append, hnl]
    have hemp : ("" : String).data = [] := rfl
    simp [hemp, List.append_assoc]
  refine ⟨h1, ?_⟩
  rw [h1]
  obtain ⟨r1, hos⟩ := os_split env
  obtain ⟨r2, hcpu⟩ := cpu_split env
  obtain ⟨r3, hmem⟩ := mem_split env
  obtain ⟨r4, hdisk⟩ := disk_split env
  rw [hos, hcpu, hmem, hdisk]
  simp only [String.data_append, List.append_assoc]
  exact chainInfix_here (chainInfix_append_left _
    (chainInfix_here (chainInfix_append_left _ (chainInfix_append_left _
    (chainInfix_append_left _
    (chainInfix_here (chainInfix_append_left _ (chainInfix_append_left _
    (chainInfix_append_left _
    (chainInfix_here (chainInfix_append_left _ (chainInfix_append_left _
    (chainInfix_append_left _
    (chainInfix_here (chainInfix_nil _)))))))))))))))

/-! ### C7: the Linux memory path -/

/-- C7: on the Linux path, the memory builder parses the memory info file
into a key-to-integer(KB) mapping, takes total from MemTotal, available
from MemAvailable when present and otherwise from MemFree, computes
used = total − available, and emits exactly these KB figures converted to
GiB (with the guarded usage percent). -/
theorem linux_memory_report (env : Env) (lines : List String)
    (m : List (String × Int)) (hsys : env.system = "Linux")
    (hfile : env.procMeminfo = Except.ok lines)
    (hparse : parseMeminfo lines = Except.ok m) :
    _get_memory_info env =
      memReport ((dictGet m "MemTotal" 0 : ℚ) / 1024 ^ 2)
        (((dictGet m "MemTotal" 0
            - dictGet m "MemAvailable" (dictGet m "MemFree" 0) : Int) : ℚ) / 1024 ^ 2)
        ((dictGet m "MemAvailable" (dictGet m "MemFree" 0) : ℚ) / 1024 ^ 2)
        (usagePercent
          ((dictGet m "MemTotal" 0
            - dictGet m "MemAvailable" (dictGet m "MemFree" 0) : Int) : ℚ)
          (dictGet m "MemTotal" 0 : ℚ)) := by
  have hw : env.system ≠ "Windows" := by rw [hsys]; decide
  have hb : memBodyNonWindows env = Except.ok (memReport
      ((dictGet m "MemTotal" 0 : ℚ) / 1024 ^ 2)
      (((dictGet m "MemTotal" 0
          - dictGet m "MemAvailable" (dictGet m "MemFree" 0) : Int) : ℚ) / 1024 ^ 2)
      ((dictGet m "MemAvailable" (dictGet m "MemFree" 0) : ℚ) / 1024 ^ 2)
      (usagePercent
        ((dictGet m "MemTotal" 0
          - dictGet m "MemAvailable" (dictGet m "MemFree" 0) : Int) : ℚ)
        (dictGet m "MemTotal" 0 : ℚ))) := by
    unfold memBodyNonWindows
    rw [if_pos hsys]
    simp only [hfile, hparse]
  unfold _get_memory_info
  rw [if_neg hw, hb]

theorem linux_memory_report_witness :
    _get_memory_info linuxMemEnv =
      memReport
        ((dictGet [("MemAvailable", 4), ("MemFree", 2), ("MemTotal", 8)] "MemTotal" 0 : ℚ)
          / 1024 ^ 2)
        (((dictGet [("MemAvailable", 4), ("MemFree", 2), ("MemTotal", 8)] "MemTotal" 0
            - dictGet [("MemAvailable", 4), ("MemFree", 2), ("MemTotal", 8)] "MemAvailable"
              (dictGet [("MemAvailable", 4), ("MemFree", 2), ("MemTotal", 8)] "MemFree" 0)
            : Int) : ℚ) / 1024 ^ 2)
        ((dictGet [("MemAvailable", 4), ("MemFree", 2), ("MemTotal", 8)] "MemAvailable"
            (dictGet [("MemAvailable", 4), ("MemFree", 2), ("MemTotal", 8)] "MemFree" 0) : ℚ)
          / 1024 ^ 2)
        (usagePercent
          ((dictGet [("MemAvailable", 4), ("MemFree", 2), ("MemTotal", 8)] "MemTotal" 0
              - dictGet [("MemAvailable", 4), ("MemFree", 2), ("MemTotal", 8)] "MemAvailable"
                (dictGet [("MemAvailable", 4), ("MemFree", 2), ("MemTotal", 8)] "MemFree" 0)
              : Int) : ℚ)
          (dictGet [("MemAvailable", 4), ("MemFree", 2), ("MemTotal", 8)] "MemTotal" 0 : ℚ)) :=
  linux_memory_report linuxMemEnv
    ["MemTotal: 8 kB", "MemFree: 2 kB", "MemAvailable: 4 kB"]
    [("MemAvailable", 4), ("MemFree", 2), ("MemTotal", 8)] rfl rfl rfl

/-! ### C8: the CPU-model probe takes the last separator piece -/

theorem splitChar_ne_nil (c : Char) (l : List Char) : splitChar c l ≠ [] := by
  cases l with
  | nil => simp [splitChar]
  | cons x xs =>
    simp only [splitChar]
    split <;> simp

theorem splitChar_not_mem {c : Char} {l : List Char} (h : c ∉ l) : splitChar c l = [l] := by
  induction l with
  | nil => rfl
  | cons x xs ih =>
    simp only [List.mem_cons, not_or] at h
    have hx : ¬ x = c := fun he => h.1 he.symm
    simp only [splitChar]
    rw [if_neg hx, ih h.2]
    simp

theorem splitChar_append_not_mem {c : Char} {l₁ : List Char} (h : c ∉ l₁) (l₂ : List Char) :
    splitChar c (l₁ ++ l₂)
      = (l₁ ++ (splitChar c l₂).headD []) :: (splitChar c l₂).tail := by
  induction l₁ with
  | nil =>
    cases hsc : splitChar c l₂ with
    | nil => exact absurd hsc (splitChar_ne_nil c l₂)
    | cons a as => simp [hsc]
  | cons x xs ih =>
    simp only [List.mem_cons, not_or] at h
    have hx : ¬ x = c := fun he => h.1 he.symm
    simp only [List.cons_append, splitChar, List.append_eq]
    rw [if_neg hx, ih h.2]
    simp

theorem modelScan_skip (line : String) (post : List String) :
    ∀ ps : List String, (∀ l ∈ ps, ¬ strContains (pyLower l) "model name") →
      modelScan (ps ++ line :: post) = modelScan (line :: post) := by
  intro ps
  induction ps with
  | nil => intro _; rfl
  | cons a as ih =>
    intro hps
    simp only [List.cons_append, modelScan]
    rw [if_neg (hps a (List.mem_cons_self a as))]
    exact ih (fun l hl => hps l (List.mem_cons_of_mem a hl))

set_option maxRecDepth 40000 in
/-- C8 counterexample: for the cpuinfo line "model name : a:b" — the
claim's shape with value string V = "a:b" — the probe returns "b", the
trimmed text after the LAST separator, not V trimmed (which is "a:b").
This refutes the claim's "for every value string V". -/
theorem cpu_model_last_colon_cex :
    cpuModel colonModelEnv = "b" ∧ pyStrip "a:b" = "a:b" ∧ ("b" : String) ≠ "a:b" :=
  ⟨by decide, by decide, by decide⟩

/-- C8 (amended): the probe returns the trimmed value after the LAST
separator of the first matching line; for a line "model name : V" this is
V trimmed exactly when V itself contains no separator. -/
theorem cpu_model_first_match (env : Env) (pre post : List String) (V : String)
    (hsys : env.system = "Linux")
    (hfile : env.procCpuinfo = Except.ok (pre ++ ("model name : " ++ V) :: post))
    (hpre : ∀ l ∈ pre, ¬ strContains (pyLower l) "model name")
    (hV : ':' ∉ V.data) :
    cpuModel env = pyStrip V := by
  unfold cpuModel
  rw [if_pos hsys, hfile]
  show modelScan (pre ++ ("model name : " ++ V) :: post) = pyStrip V
  rw [modelScan_skip ("model name : " ++ V) post pre hpre]
  have hmatch : strContains (pyLower ("model name : " ++ V)) "model name" := by
    show ("model name" : String).data <:+: (pyLower ("model name : " ++ V)).data
    have hdata : (pyLower ("model name : " ++ V)).data
        = ("model name : " : String).data ++ (pyLower V).data := by
      show (("model name : " ++ V).data.map Char.toLower) = _
      rw [String.data_append, List.map_append]
      have hlit : (("model name : " : String).data.map Char.toLower)
          = ("model name : " : String).data := by decide
      rw [hlit]
      rfl
    rw [hdata]
    exact List.IsPrefix.isInfix
      (List.IsPrefix.trans (by decide) (List.prefix_append _ _))
  simp only [modelScan]
  rw [if_pos hmatch]
  have hsplit : splitChar ':' ("model name : " ++ V).data
      = [("model name " : String).data, ' ' :: V.data] := by
    have hchunk : ("model name : " ++ V).data
        = ("model name " : String).data ++ (':' :: (' ' :: V.data)) := by
      rw [String.data_append]
      have : ("model name : " : String).data
          = ("model name " : String).data ++ [':', ' '] := by decide
      rw [this, List.append_assoc]
      rfl
    rw [hchunk, splitChar_append_not_mem (by decide) _]
    have h2 : splitChar ':' (' ' :: V.data) = [' ' :: V.data] := by
      apply splitChar_not_mem
      intro hmem
      rcases List.mem_cons.mp hmem with h | h
      · exact absurd h (by decide)
      · exact hV h
    have h3 : splitChar ':' (':' :: (' ' :: V.data)) = [] :: [' ' :: V.data] := by
      show (if (':' : Char) = ':' then [] :: splitChar ':' (' ' :: V.data)
        else ((':' :: (splitChar ':' (' ' :: V.data)).headD [])
          :: (splitChar ':' (' ' :: V.data)).tail)) = [] :: [' ' :: V.data]
      rw [if_pos rfl, h2]
    rw [h3]
    simp
  have h4 : lastColonPart ("model name : " ++ V) = String.mk (' ' :: V.data) := by
    unfold lastColonPart
    rw [hsplit]
    rfl
  rw [h4]
  show String.mk (stripChars (' ' :: V.data)) = String.mk (stripChars V.data)
  apply congrArg String.mk
  unfold stripChars
  have hdrop : (' ' :: V.data).dropWhile Char.isWhitespace
      = V.data.dropWhile Char.isWhitespace := by
    rw [List.dropWhile_cons]
    rw [if_pos (by decide)]
  rw [hdrop]

theorem cpu_model_first_match_witness :
    cpuModel { testEnv with
      system := "Linux"
      procCpuinfo := Except.ok ["model name : Xeon"] } = pyStrip "Xeon" :=
  cpu_model_first_match _ [] [] "Xeon" rfl rfl (by simp) (by decide)

end SystemInfo
